import Mathlib

/-!
Shallow embedding of the CVTOOLS component registry / theme / plugin / configuration
mechanism (frontend/src/lib/component-registry.ts, theme-engine.ts,
extensible-registry.ts, and the component-config-manager / component-plugin-system
modules), together with proofs about the frozen specification claims.

Modelling conventions:
* JavaScript runtime values are modelled by `JsValue`; numbers are exact rationals
  (`ℚ`), so `NaN`/`Infinity` are outside the model.
* `Record<string, T>` objects and JS `Map`s are modelled as association lists with
  first-match lookup; JS object spread `{...a, ...b}` is `recMerge a b`.
* Single-quote characters occurring inside source message strings are omitted from
  the transliterated string literals; no claim depends on them.
* Logging (`console.warn` / `console.error`) is an invisible side effect and is
  dropped; DOM side effects (`applyGlobalTheme`) are out of scope.
* The deferred listener notification of `ThemeEngine.setTheme` (`queueMicrotask`)
  is modelled by an explicit queue of deferred tasks returned by the call, so that
  "runs after the synchronous call returns" is visible in the result type.
-/

namespace CVTOOLS

/-- A JavaScript runtime value as far as the validators inspect it.
Numbers are exact rationals; `NaN` and `Infinity` are not modelled. Array
values are modelled by their length, the only attribute any verified operation
reads (`Array.isArray` and `.length`); element values never flow into the
verified code. `JsValue` has value semantics (JS object identity is not
modelled). -/
inductive JsValue where
  | jsUndefined : JsValue
  | null : JsValue
  | bool (b : Bool) : JsValue
  | num (q : ℚ) : JsValue
  | str (s : String) : JsValue
  | arr (len : ℕ) : JsValue
  deriving Repr, DecidableEq

/-- JavaScript truthiness (`!v` is `!truthy v`). An array is always truthy. -/
def JsValue.truthy : JsValue → Bool
  | .jsUndefined => false
  | .null => false
  | .bool b => b
  | .num q => decide (q ≠ 0)
  | .str s => decide (s ≠ "")
  | .arr _ => true

/-- `v` is truthy and `typeof v === "string"`. -/
def JsValue.isNonEmptyStr : JsValue → Bool
  | .str s => decide (s ≠ "")
  | _ => false

/-- `Array.isArray v`. -/
def JsValue.isArr : JsValue → Bool
  | .arr _ => true
  | _ => false

/-- String conversion used for template-literal interpolation (approximate: JS
number and array formatting are not reproduced; no claim inspects interpolated
fragments). -/
def JsValue.display : JsValue → String
  | .jsUndefined => "undefined"
  | .null => "null"
  | .bool true => "true"
  | .bool false => "false"
  | .num q => toString q
  | .str s => s
  | .arr _ => "array"

/-- An untyped property bag (`Record<string, unknown>`). -/
abbrev Props := List (String × JsValue)

/-- Property access `props.k` (absent keys read as `undefined`). -/
def getProp (p : Props) (k : String) : JsValue :=
  (List.lookup k p).getD .jsUndefined

/-- `ValidationResult` from component-registry.ts. -/
structure ValidationResult where
  valid : Bool
  errors : List String
  warnings : List String
  deriving Repr, DecidableEq

/-- The `ComponentType` enum (types/portfolio.ts): the fixed set of 7 core
component identifiers. -/
inductive ComponentType where
  | HERO_PRISM
  | HERO_TERMINAL
  | EXP_TIMELINE
  | EXP_MASONRY
  | SKILLS_DOTS
  | SKILLS_RADAR
  | STATS_BENTO
  deriving Repr, DecidableEq

/-- The string value of each `ComponentType` enum member. -/
def ComponentType.toId : ComponentType → String
  | .HERO_PRISM => "tool_hero_prism"
  | .HERO_TERMINAL => "tool_hero_terminal"
  | .EXP_TIMELINE => "tool_exp_timeline"
  | .EXP_MASONRY => "tool_exp_masonry"
  | .SKILLS_DOTS => "tool_skills_dots"
  | .SKILLS_RADAR => "tool_skills_radar"
  | .STATS_BENTO => "tool_stats_bento"

/-- `Object.values(ComponentType)` in declaration order. -/
def allComponentTypes : List ComponentType :=
  [.HERO_PRISM, .HERO_TERMINAL, .EXP_TIMELINE, .EXP_MASONRY,
   .SKILLS_DOTS, .SKILLS_RADAR, .STATS_BENTO]

/-- Recover the enum member denoted by a string, if any. -/
def componentTypeOfId (s : String) : Option ComponentType :=
  allComponentTypes.find? (fun t => t.toId = s)

/-- `isValidComponentType` (component-registry.ts): membership of the string in
`Object.values(ComponentType)`. -/
def isValidComponentType (s : String) : Bool :=
  (componentTypeOfId s).isSome

/-- The string values of the `HeroTheme` enum (types/portfolio.ts). -/
def heroThemeValues : List String :=
  ["ocean", "sunset", "forest", "matrix", "cyberpunk", "minimal"]

/-- `Object.values(HeroTheme).includes(v)`. -/
def isHeroThemeVal : JsValue → Bool
  | .str s => heroThemeValues.contains s
  | _ => false

/-- The `ThemePalette` enum (types/portfolio.ts). -/
inductive ThemePalette where
  | NEON_BLUE
  | EMERALD_GREEN
  | CYBER_PINK
  deriving Repr, DecidableEq

/-- The string value of each `ThemePalette` enum member. -/
def ThemePalette.toId : ThemePalette → String
  | .NEON_BLUE => "neon_blue"
  | .EMERALD_GREEN => "emerald_green"
  | .CYBER_PINK => "cyber_pink"

/-- Recover the palette denoted by a string, if any. -/
def themePaletteOfId (s : String) : Option ThemePalette :=
  [ThemePalette.NEON_BLUE, .EMERALD_GREEN, .CYBER_PINK].find? (fun t => t.toId = s)

/-- `isValidTheme` (theme-engine.ts) restricted to strings: membership in
`Object.values(ThemePalette)`. -/
def isValidTheme (s : String) : Bool :=
  (themePaletteOfId s).isSome

/-- `ThemeColors` (theme-engine.ts). -/
structure ThemeColors where
  primary : String
  secondary : String
  accent : String
  glow : String
  deriving Repr, DecidableEq

/-- `ThemeDefinition` (theme-engine.ts). -/
structure ThemeDefinition where
  name : ThemePalette
  displayName : String
  colors : ThemeColors
  cssClass : String
  deriving Repr, DecidableEq

/-- `THEME_DEFINITIONS` (theme-engine.ts). -/
def THEME_DEFINITIONS : ThemePalette → ThemeDefinition
  | .NEON_BLUE =>
    { name := .NEON_BLUE
      displayName := "Neon Blue"
      colors :=
        { primary := "#00d4ff"
          secondary := "#0099cc"
          accent := "#66e0ff"
          glow := "rgba(0, 212, 255, 0.3)" }
      cssClass := "theme-neon-blue" }
  | .EMERALD_GREEN =>
    { name := .EMERALD_GREEN
      displayName := "Emerald Green"
      colors :=
        { primary := "#00ff88"
          secondary := "#00cc6a"
          accent := "#66ffaa"
          glow := "rgba(0, 255, 136, 0.3)" }
      cssClass := "theme-emerald-green" }
  | .CYBER_PINK =>
    { name := .CYBER_PINK
      displayName := "Cyber Pink"
      colors :=
        { primary := "#ff0080"
          secondary := "#cc0066"
          accent := "#ff66b3"
          glow := "rgba(255, 0, 128, 0.3)" }
      cssClass := "theme-cyber-pink" }

/-- `DEFAULT_THEME` (theme-engine.ts). -/
def DEFAULT_THEME : ThemePalette := .NEON_BLUE

/-- `getThemeDefinition` (theme-engine.ts): total lookup, falling back to the
default theme for invalid identifiers (the `console.warn` is dropped). -/
def getThemeDefinition (theme : String) : ThemeDefinition :=
  match themePaletteOfId theme with
  | some p => THEME_DEFINITIONS p
  | none => THEME_DEFINITIONS DEFAULT_THEME

/-- `ensureValidTheme` (theme-engine.ts): the validated theme or the default. -/
def ensureValidTheme (theme : String) : ThemePalette :=
  (themePaletteOfId theme).getD DEFAULT_THEME

/-- The `ThemeEngine` instance state: current theme and subscribed listeners
(listeners are tracked by opaque identifiers). -/
structure ThemeEngineState where
  currentTheme : ThemePalette
  listeners : List Nat
  deriving Repr, DecidableEq

/-- Observable outcome of one synchronous `ThemeEngine.setTheme` call.
`immediateNotifications` are listener invocations performed before the call
returns; `deferredTasks` are the listener batches scheduled via `queueMicrotask`,
which the event loop runs only after the calling synchronous execution unwinds. -/
structure SetThemeResult where
  state : ThemeEngineState
  immediateNotifications : List Nat
  deferredTasks : List (List Nat)
  deriving Repr, DecidableEq

/-- `ThemeEngine.setTheme` (theme-engine.ts). The listener loop sits inside a
`queueMicrotask` callback in the source, so the synchronous call performs no
listener invocation; `applyGlobalTheme` (a DOM effect) is out of scope. -/
def ThemeEngine.setTheme (st : ThemeEngineState) (theme : String) : SetThemeResult :=
  let validTheme := ensureValidTheme theme
  if validTheme = st.currentTheme then
    { state := st, immediateNotifications := [], deferredTasks := [] }
  else
    { state := { currentTheme := validTheme, listeners := st.listeners }
      immediateNotifications := []
      deferredTasks := [st.listeners] }

/-- `ComponentMetadata` (component-registry.ts). The category is kept as the raw
string, as at JS runtime; core metadata only uses `hero`, `experience`,
`skills`, `stats`. -/
structure ComponentMetadata where
  name : String
  description : String
  category : String
  requiredProps : List String
  optionalProps : List String
  deriving Repr, DecidableEq

/-- An opaque renderer handle. The seven core renderers are enumerated; plugin
renderers are opaque tagged handles. -/
inductive Renderer where
  | HeroPrism
  | HeroTerminal
  | ExpTimeline
  | ExpMasonry
  | SkillDots
  | SkillRadar
  | BentoGrid
  | custom (tag : String)
  deriving Repr, DecidableEq

/-- `COMPONENT_MAP` (component-registry.ts). -/
def COMPONENT_MAP : ComponentType → Renderer
  | .HERO_PRISM => .HeroPrism
  | .HERO_TERMINAL => .HeroTerminal
  | .EXP_TIMELINE => .ExpTimeline
  | .EXP_MASONRY => .ExpMasonry
  | .SKILLS_DOTS => .SkillDots
  | .SKILLS_RADAR => .SkillRadar
  | .STATS_BENTO => .BentoGrid

/-- The per-type prop validators (`propValidators` in component-registry.ts).
Each transliterates the corresponding arrow function; `valid` is
`errors.length === 0`. -/
def propValidators : ComponentType → Props → ValidationResult
  | .HERO_PRISM, props =>
    let errors :=
      (if (getProp props "name").isNonEmptyStr then []
       else ["HeroPrism requires name prop of type string"]) ++
      (if (getProp props "title").isNonEmptyStr then []
       else ["HeroPrism requires title prop of type string"])
    let warnings :=
      if (getProp props "theme").truthy && !isHeroThemeVal (getProp props "theme") then
        ["Invalid theme " ++ (getProp props "theme").display ++ ", will use default ocean"]
      else []
    { valid := errors.isEmpty, errors, warnings }
  | .HERO_TERMINAL, props =>
    let errors :=
      (if (getProp props "name").isNonEmptyStr then []
       else ["HeroTerminal requires name prop of type string"]) ++
      (if (getProp props "title").isNonEmptyStr then []
       else ["HeroTerminal requires title prop of type string"]) ++
      (if (getProp props "commands").isArr then []
       else ["HeroTerminal requires commands prop of type string[]"])
    let warnings :=
      if (getProp props "theme").truthy && !isHeroThemeVal (getProp props "theme") then
        ["Invalid theme " ++ (getProp props "theme").display ++ ", will use default matrix"]
      else []
    { valid := errors.isEmpty, errors, warnings }
  | .EXP_TIMELINE, props =>
    match getProp props "experiences" with
    | .arr 0 => { valid := true, errors := [],
                  warnings := ["ExpTimeline received empty experiences array"] }
    | .arr (_ + 1) => { valid := true, errors := [], warnings := [] }
    | _ => { valid := false,
             errors := ["ExpTimeline requires experiences prop of type Experience[]"],
             warnings := [] }
  | .EXP_MASONRY, props =>
    match getProp props "experiences" with
    | .arr 0 => { valid := true, errors := [],
                  warnings := ["ExpMasonry received empty experiences array"] }
    | .arr (_ + 1) => { valid := true, errors := [], warnings := [] }
    | _ => { valid := false,
             errors := ["ExpMasonry requires experiences prop of type Experience[]"],
             warnings := [] }
  | .SKILLS_DOTS, props =>
    match getProp props "skills" with
    | .arr 0 => { valid := true, errors := [],
                  warnings := ["SkillDots received empty skills array"] }
    | .arr (_ + 1) => { valid := true, errors := [], warnings := [] }
    | _ => { valid := false,
             errors := ["SkillDots requires skills prop of type Skill[]"],
             warnings := [] }
  | .SKILLS_RADAR, props =>
    match getProp props "skills" with
    | .arr 0 => { valid := true, errors := [],
                  warnings := ["SkillRadar received empty skills array"] }
    | .arr (n + 1) =>
      if n + 1 < 3 then
        { valid := true, errors := [],
          warnings := ["SkillRadar works best with at least 3 skills for radar visualization"] }
      else { valid := true, errors := [], warnings := [] }
    | _ => { valid := false,
             errors := ["SkillRadar requires skills prop of type Skill[]"],
             warnings := [] }
  | .STATS_BENTO, props =>
    match getProp props "achievements" with
    | .arr 0 => { valid := true, errors := [],
                  warnings := ["BentoGrid received empty achievements array"] }
    | .arr (_ + 1) => { valid := true, errors := [], warnings := [] }
    | _ => { valid := false,
             errors := ["BentoGrid requires achievements prop of type Achievement[]"],
             warnings := [] }

/-- `componentMetadata` (component-registry.ts). -/
def componentMetadata : ComponentType → ComponentMetadata
  | .HERO_PRISM =>
    { name := "HeroPrism"
      description := "Liquid glass hero section with interactive cursor effects"
      category := "hero"
      requiredProps := ["name", "title"]
      optionalProps := ["theme", "subtitle", "contact"] }
  | .HERO_TERMINAL =>
    { name := "HeroTerminal"
      description := "Terminal-style hero section with typewriter effects"
      category := "hero"
      requiredProps := ["name", "title", "commands"]
      optionalProps := ["theme"] }
  | .EXP_TIMELINE =>
    { name := "ExpTimeline"
      description := "Vertical timeline layout with connected experience cards"
      category := "experience"
      requiredProps := ["experiences"]
      optionalProps := ["theme"] }
  | .EXP_MASONRY =>
    { name := "ExpMasonry"
      description := "Staggered grid layout for creative portfolios"
      category := "experience"
      requiredProps := ["experiences"]
      optionalProps := ["projects", "theme"] }
  | .SKILLS_DOTS =>
    { name := "SkillDots"
      description := "1-5 glowing neon dot skill indicators"
      category := "skills"
      requiredProps := ["skills"]
      optionalProps := ["maxLevel", "theme"] }
  | .SKILLS_RADAR =>
    { name := "SkillRadar"
      description := "Hexagonal spider chart for comprehensive skills"
      category := "skills"
      requiredProps := ["skills"]
      optionalProps := ["theme"] }
  | .STATS_BENTO =>
    { name := "BentoGrid"
      description := "Achievement statistics in bento box layout"
      category := "stats"
      requiredProps := ["achievements"]
      optionalProps := ["theme"] }

namespace ComponentRegistry

/-- `ComponentRegistry.getComponent`: null on unknown identifiers. The private
registry map is total over the enum (populated once from `COMPONENT_MAP`), so
the `entry?.component ?? null` read always finds an entry for a valid type. -/
def getComponent (ty : String) : Option Renderer :=
  match componentTypeOfId ty with
  | some t => some (COMPONENT_MAP t)
  | none => none

/-- `ComponentRegistry.getMetadata`. -/
def getMetadata (ty : String) : Option ComponentMetadata :=
  match componentTypeOfId ty with
  | some t => some (componentMetadata t)
  | none => none

/-- `ComponentRegistry.validateProps`. The `Component not found in registry`
branch is unreachable (the map is populated for every enum value) and is not
modelled. -/
def validateProps (ty : String) (props : Props) : ValidationResult :=
  match componentTypeOfId ty with
  | some t => propValidators t props
  | none =>
    { valid := false
      errors := ["Unknown component type: " ++ ty]
      warnings := [] }

/-- `ComponentRegistry.hasComponent`. -/
def hasComponent (ty : String) : Bool :=
  isValidComponentType ty

/-- `ComponentRegistry.getComponentsByCategory`. -/
def getComponentsByCategory (category : String) : List ComponentType :=
  allComponentTypes.filter (fun t => (componentMetadata t).category = category)

end ComponentRegistry

/-- `ComponentConfig` (types/portfolio.ts) as it exists at runtime: the
identifier is an arbitrary string and `order` an arbitrary JS value, which is
exactly what `validateComponentConfig` guards against. -/
structure ComponentConfig where
  type : String
  props : Props
  order : JsValue
  deriving Repr, DecidableEq

namespace ComponentRegistry

/-- `typeof config.order === "number" && !(config.order < 0)`. -/
def orderOk : JsValue → Bool
  | .num q => decide (0 ≤ q)
  | _ => false

/-- `ComponentRegistry.validateComponentConfig`. -/
def validateComponentConfig (config : ComponentConfig) : ValidationResult :=
  let typeValidation := validateProps config.type config.props
  let errors := typeValidation.errors ++
    (if orderOk config.order then []
     else ["Component config requires a non-negative order number"])
  { valid := errors.isEmpty
    errors
    warnings := typeValidation.warnings }

/-- The per-entry loop of `validateLayoutComponents`: index `i` and the `orders`
set accumulated so far; returns the errors and warnings the loop pushes. -/
def layoutLoop : List ComponentConfig → ℕ → List JsValue → List String × List String
  | [], _, _ => ([], [])
  | config :: rest, i, orders =>
    let validation := validateComponentConfig config
    let errs :=
      if validation.valid then []
      else ["Component " ++ toString i ++ " (" ++ config.type ++ "): " ++
            String.intercalate ", " validation.errors]
    let warns := validation.warnings.map (fun w => "Component " ++ toString i ++ ": " ++ w)
    let dup :=
      if orders.contains config.order then
        ["Duplicate order value " ++ config.order.display ++ " found"]
      else []
    let rec_result := layoutLoop rest (i + 1) (config.order :: orders)
    (errs ++ rec_result.1, warns ++ dup ++ rec_result.2)

/-- `ComponentRegistry.validateLayoutComponents`. The `!Array.isArray(configs)`
guard is unrepresentable (the argument is a list) and not modelled. -/
def validateLayoutComponents (configs : List ComponentConfig) : ValidationResult :=
  let emptyWarnings :=
    if configs.isEmpty then ["Layout has no components configured"] else []
  let heroComponents := configs.filter
    (fun c => c.type = ComponentType.HERO_PRISM.toId ||
              c.type = ComponentType.HERO_TERMINAL.toId)
  let heroWarnings :=
    if heroComponents.length = 0 then ["Layout has no hero component"]
    else if heroComponents.length > 1 then ["Layout has multiple hero components"]
    else []
  let loopResult := layoutLoop configs 0 []
  { valid := loopResult.1.isEmpty
    errors := loopResult.1
    warnings := emptyWarnings ++ heroWarnings ++ loopResult.2 }

end ComponentRegistry

/-- The `category` union type of `ComponentMetadata` (the closed set used by
`FALLBACK_COMPONENTS` and `getFallbackComponent`). -/
inductive Category where
  | hero
  | experience
  | skills
  | stats
  deriving Repr, DecidableEq

/-- The string name of a category. -/
def Category.toStr : Category → String
  | .hero => "hero"
  | .experience => "experience"
  | .skills => "skills"
  | .stats => "stats"

/-- `FALLBACK_COMPONENTS` (component-registry.ts): the fixed one-per-category
core fallback identifier. -/
def FALLBACK_COMPONENTS : Category → ComponentType
  | .hero => .HERO_PRISM
  | .experience => .EXP_TIMELINE
  | .skills => .SKILLS_DOTS
  | .stats => .STATS_BENTO

/- ### Association-list model of JS `Map` / plain-object records -/

/-- `map.get(k)` / `record[k]` (first match). -/
def mapGet (m : List (String × α)) (k : String) : Option α :=
  List.lookup k m

/-- `map.has(k)` / `k in record`. -/
def mapHas (m : List (String × α)) (k : String) : Bool :=
  m.any (fun p => p.1 = k)

/-- `map.set(k, v)`: replace in place when the key exists, append otherwise. -/
def mapSet (m : List (String × α)) (k : String) (v : α) : List (String × α) :=
  if mapHas m k then m.map (fun p => if p.1 = k then (k, v) else p)
  else m ++ [(k, v)]

/-- `map.delete(k)` / `delete record[k]`. -/
def mapDelete (m : List (String × α)) (k : String) : List (String × α) :=
  m.filter (fun p => p.1 ≠ k)

/-- JS object spread `{...a, ...b}`: keys of both, with the keys of `b` taking
precedence. -/
def recMerge (a b : List (String × α)) : List (String × α) :=
  a.filter (fun p => (mapGet b p.1).isNone) ++ b

/- ### Component Plugin System (component-plugin-system.ts) -/

/-- `ToolDefinition` (component-plugin-system.ts); parameter definitions are
opaque to every verified operation and are modelled as JS values. -/
structure ToolDefinition where
  name : String
  description : String
  parameters : List (String × JsValue)

/-- `PluginConfig` (component-plugin-system.ts). -/
structure PluginConfig where
  enabled : Bool
  priority : ℚ
  settings : List (String × JsValue)
  deriving Repr, DecidableEq

/-- `PluginLifecycleHooks`. A hook is a side-effecting callback; its observable
outcome here is whether it returns normally or throws (with the thrown value
already stringified). `beforeRender` transforms a props bag or throws. -/
structure PluginLifecycleHooks where
  onRegister : Option (Except String Unit)
  onUnregister : Option (Except String Unit)
  beforeRender : Option (Props → Except String Props)
  afterRender : Option (Except String Unit)

/-- `ExtendedComponentPlugin` as a runtime record: fields whose absence the
structural validation of `registerPlugin` can detect are `Option`s. An absent
or non-function `component`/`validateProps` is `none`; `metadata.requiredProps`
is total because a JS array is always truthy, so its presence check can only
fail on an absent field, which the TS type forbids and no claim exercises. -/
structure ExtendedComponentPlugin where
  id : String
  component : Option Renderer
  metadata : Option ComponentMetadata
  validateProps : Option (Props → ValidationResult)
  toolDefinition : Option ToolDefinition
  hooks : Option PluginLifecycleHooks
  config : Option PluginConfig

/-- `PluginRegistrationResult`. -/
structure PluginRegistrationResult where
  success : Bool
  pluginId : String
  errors : List String
  warnings : List String

/-- `ComponentAvailabilityConfig`. -/
structure ComponentAvailabilityConfig where
  enabledComponents : List String
  disabledComponents : List String
  categoryDefaults : List (String × String)
  priorityOverrides : List (String × ℚ)

/-- The `PluginManager` instance state. -/
structure PluginManagerState where
  plugins : List (String × ExtendedComponentPlugin)
  configs : List (String × PluginConfig)
  availabilityConfig : ComponentAvailabilityConfig

/-- The freshly constructed `PluginManager`. -/
def PluginManagerState.initial : PluginManagerState :=
  { plugins := []
    configs := []
    availabilityConfig :=
      { enabledComponents := []
        disabledComponents := []
        categoryDefaults := []
        priorityOverrides := [] } }

namespace PluginManager

/-- The structural-validation errors collected at the top of
`PluginManager.registerPlugin`. -/
def registerErrors (plugin : ExtendedComponentPlugin) : List String :=
  (if plugin.id = "" then ["Plugin must have a valid string id"] else []) ++
  (if plugin.component.isNone then ["Plugin must have a valid React component"] else []) ++
  (match plugin.metadata with
   | none => ["Plugin must have metadata"]
   | some m =>
     (if m.name = "" then ["Plugin metadata must have a name"] else []) ++
     (if m.category = "" then ["Plugin metadata must have a category"] else [])) ++
  (if plugin.validateProps.isNone then ["Plugin must have a validateProps function"] else [])

/-- The default per-plugin configuration seeded on first registration. -/
def defaultPluginConfig : PluginConfig :=
  { enabled := true, priority := 0, settings := [] }

/-- `PluginManager.registerPlugin`. -/
def registerPlugin (s : PluginManagerState) (plugin : ExtendedComponentPlugin) :
    PluginManagerState × PluginRegistrationResult :=
  let errors := registerErrors plugin
  let warnings :=
    if mapHas s.plugins plugin.id then
      ["Plugin " ++ plugin.id ++ " already registered, will be overwritten"]
    else []
  if errors.isEmpty then
    let plugins := mapSet s.plugins plugin.id plugin
    let configs :=
      if mapHas s.configs plugin.id then s.configs
      else mapSet s.configs plugin.id (plugin.config.getD defaultPluginConfig)
    let warnings := warnings ++
      (match plugin.hooks.bind (fun h => h.onRegister) with
       | some (.error e) => ["onRegister hook failed: " ++ e]
       | _ => [])
    ({ s with plugins := plugins, configs := configs },
     { success := true, pluginId := plugin.id, errors := [], warnings := warnings })
  else
    (s, { success := false
          pluginId := if plugin.id = "" then "unknown" else plugin.id
          errors := errors
          warnings := warnings })

/-- `PluginManager.unregisterPlugin` (the best-effort `onUnregister` hook only
logs on failure and does not affect the result). -/
def unregisterPlugin (s : PluginManagerState) (pluginId : String) :
    PluginManagerState × Bool :=
  match mapGet s.plugins pluginId with
  | none => (s, false)
  | some _ =>
    ({ s with plugins := mapDelete s.plugins pluginId
              configs := mapDelete s.configs pluginId }, true)

/-- `PluginManager.hasPlugin`. -/
def hasPlugin (s : PluginManagerState) (pluginId : String) : Bool :=
  mapHas s.plugins pluginId

/-- `PluginManager.updatePluginConfig`. -/
def updatePluginConfig (s : PluginManagerState) (pluginId : String)
    (enabled : Option Bool) (priority : Option ℚ)
    (settings : Option (List (String × JsValue))) : PluginManagerState × Bool :=
  match mapGet s.configs pluginId with
  | none => (s, false)
  | some existingConfig =>
    let newConfig : PluginConfig :=
      { enabled := enabled.getD existingConfig.enabled
        priority := priority.getD existingConfig.priority
        settings := recMerge existingConfig.settings (settings.getD []) }
    ({ s with configs := mapSet s.configs pluginId newConfig }, true)

/-- `PluginManager.enablePlugin`. -/
def enablePlugin (s : PluginManagerState) (pluginId : String) :
    PluginManagerState × Bool :=
  updatePluginConfig s pluginId (some true) none none

/-- `PluginManager.disablePlugin`. -/
def disablePlugin (s : PluginManagerState) (pluginId : String) :
    PluginManagerState × Bool :=
  updatePluginConfig s pluginId (some false) none none

/-- `PluginManager.isPluginEnabled`. -/
def isPluginEnabled (s : PluginManagerState) (pluginId : String) : Bool :=
  match mapGet s.configs pluginId with
  | some config => config.enabled
  | none => false

/-- `PluginManager.getPluginsByCategory`. -/
def getPluginsByCategory (s : PluginManagerState) (category : String) :
    List ExtendedComponentPlugin :=
  (s.plugins.map (fun p => p.2)).filter
    (fun plugin => match plugin.metadata with
      | some m => m.category = category
      | none => false)

/-- `PluginManager.getCategoryDefault`. -/
def getCategoryDefault (s : PluginManagerState) (category : String) : Option String :=
  mapGet s.availabilityConfig.categoryDefaults category

/-- `PluginManager.validatePluginProps`. -/
def validatePluginProps (s : PluginManagerState) (pluginId : String) (props : Props) :
    ValidationResult :=
  match mapGet s.plugins pluginId with
  | none =>
    { valid := false
      errors := ["Plugin not found: " ++ pluginId]
      warnings := [] }
  | some plugin =>
    let hookResult : Except String Props :=
      match plugin.hooks.bind (fun h => h.beforeRender) with
      | some f => f props
      | none => .ok props
    match hookResult with
    | .error e =>
      { valid := false
        errors := ["beforeRender hook failed: " ++ e]
        warnings := [] }
    | .ok processedProps =>
      match plugin.validateProps with
      | some v => v processedProps
      | none => { valid := true, errors := [], warnings := [] }

/-- `PluginManager.getPluginCount`. -/
def getPluginCount (s : PluginManagerState) : ℕ :=
  s.plugins.length

end PluginManager

/- ### Component Configuration Manager (component-config-manager.ts) -/

/-- `ComponentSettings`. -/
structure ComponentSettings where
  animationsEnabled : Bool
  animationDuration : ℚ
  showTooltips : Bool
  customClasses : List String
  themeOverrides : List (String × String)
  featureFlags : List (String × Bool)
  deriving Repr, DecidableEq

/-- `Partial<ComponentSettings>`: each field optionally present. -/
structure PartialComponentSettings where
  animationsEnabled : Option Bool := none
  animationDuration : Option ℚ := none
  showTooltips : Option Bool := none
  customClasses : Option (List String) := none
  themeOverrides : Option (List (String × String)) := none
  featureFlags : Option (List (String × Bool)) := none
  deriving Repr, DecidableEq

/-- `DEFAULT_SETTINGS` (component-config-manager.ts). -/
def DEFAULT_SETTINGS : ComponentSettings :=
  { animationsEnabled := true
    animationDuration := 300
    showTooltips := true
    customClasses := []
    themeOverrides := []
    featureFlags := [] }

/-- `GlobalComponentConfig` (component-config-manager.ts). -/
structure GlobalComponentConfig where
  defaultSettings : ComponentSettings
  componentOverrides : List (String × PartialComponentSettings)
  disabledComponents : List String
  maxComponentsPerLayout : ℚ
  allowCustomComponents : Bool
  debugMode : Bool
  deriving Repr, DecidableEq

/-- `DEFAULT_GLOBAL_CONFIG` (component-config-manager.ts). -/
def DEFAULT_GLOBAL_CONFIG : GlobalComponentConfig :=
  { defaultSettings := DEFAULT_SETTINGS
    componentOverrides := []
    disabledComponents := []
    maxComponentsPerLayout := 10
    allowCustomComponents := true
    debugMode := false }

/-- The all-absent partial settings record (`overrides || {}`). -/
def emptyPartialSettings : PartialComponentSettings := {}

namespace ComponentConfigManager

/-- `ComponentConfigManager.getComponentSettings`: the defaults spread-merged
with the per-identifier overrides; list fields concatenated, map fields merged
key-wise with override precedence. The change-event history and listener
machinery of the manager are observational only and not part of the state. -/
def getComponentSettings (g : GlobalComponentConfig) (componentId : String) :
    ComponentSettings :=
  let overrides := (mapGet g.componentOverrides componentId).getD emptyPartialSettings
  { animationsEnabled := overrides.animationsEnabled.getD g.defaultSettings.animationsEnabled
    animationDuration := overrides.animationDuration.getD g.defaultSettings.animationDuration
    showTooltips := overrides.showTooltips.getD g.defaultSettings.showTooltips
    customClasses := g.defaultSettings.customClasses ++ (overrides.customClasses.getD [])
    themeOverrides := recMerge g.defaultSettings.themeOverrides (overrides.themeOverrides.getD [])
    featureFlags := recMerge g.defaultSettings.featureFlags (overrides.featureFlags.getD []) }

/-- `ComponentConfigManager.isComponentDisabled`. -/
def isComponentDisabled (g : GlobalComponentConfig) (componentId : String) : Bool :=
  g.disabledComponents.contains componentId

/-- `ComponentConfigManager.disableComponent` (idempotent; the emitted change
event is observational and not modelled). -/
def disableComponent (g : GlobalComponentConfig) (componentId : String) :
    GlobalComponentConfig :=
  if g.disabledComponents.contains componentId then g
  else { g with disabledComponents := g.disabledComponents ++ [componentId] }

/-- `ComponentConfigManager.enableComponent` (removes the first occurrence, as
`indexOf`/`splice` does). -/
def enableComponent (g : GlobalComponentConfig) (componentId : String) :
    GlobalComponentConfig :=
  if g.disabledComponents.contains componentId then
    { g with disabledComponents := g.disabledComponents.eraseP (fun x => x = componentId) }
  else g

end ComponentConfigManager

/- ### Extensible Component Registry (extensible-registry.ts) -/

/-- `ExtendedRegistryEntry`. On the success path of `registerComponent` the
source casts `plugin.component` (and stores `plugin.validateProps`) knowing the
structural validation has passed; the `getD` defaults below are likewise
unreachable on that path. -/
structure ExtendedRegistryEntry where
  component : Renderer
  metadata : ComponentMetadata
  validateProps : Props → ValidationResult
  isPlugin : Bool
  pluginId : Option String
  toolDefinition : Option ToolDefinition

/-- The provenance tag of a lookup. -/
inductive Source where
  | core
  | plugin
  | not_found
  deriving Repr, DecidableEq

/-- `ComponentLookupResult`. -/
structure ComponentLookupResult where
  component : Option Renderer
  metadata : Option ComponentMetadata
  isPlugin : Bool
  isEnabled : Bool
  source : Source
  deriving Repr, DecidableEq

/-- The `ExtensibleComponentRegistry` instance state: the plugin manager, the
configuration manager (its `GlobalComponentConfig`), and the registry's own
custom-components map. The core `ComponentRegistry` is stateless. -/
structure ExtRegState where
  pm : PluginManagerState
  cm : GlobalComponentConfig
  customComponents : List (String × ExtendedRegistryEntry)

/-- The freshly constructed registry (as after `resetInstance`). -/
def ExtRegState.initial : ExtRegState :=
  { pm := PluginManagerState.initial
    cm := DEFAULT_GLOBAL_CONFIG
    customComponents := [] }

namespace ExtensibleComponentRegistry

/-- `ExtensibleComponentRegistry.isCoreComponent`:
`Object.values(ComponentType).includes(componentId)`. -/
def isCoreComponent (componentId : String) : Bool :=
  isValidComponentType componentId

/-- `RegisterComponentResult`: the anonymous result record of
`ExtensibleComponentRegistry.registerComponent`. -/
structure RegisterComponentResult where
  success : Bool
  errors : List String
  warnings : List String
  deriving Repr, DecidableEq

/-- `ExtensibleComponentRegistry.registerComponent`. -/
def registerComponent (s : ExtRegState) (plugin : ExtendedComponentPlugin) :
    ExtRegState × RegisterComponentResult :=
  if !s.cm.allowCustomComponents then
    (s, { success := false
          errors := ["Custom components are not allowed in current configuration"]
          warnings := [] })
  else
    let (pm, result) := PluginManager.registerPlugin s.pm plugin
    let customComponents :=
      if result.success then
        mapSet s.customComponents plugin.id
          { component := plugin.component.getD (.custom plugin.id)
            metadata := plugin.metadata.getD
              { name := "", description := "", category := "",
                requiredProps := [], optionalProps := [] }
            validateProps := plugin.validateProps.getD (fun _ =>
              { valid := true, errors := [], warnings := [] })
            isPlugin := true
            pluginId := some plugin.id
            toolDefinition := plugin.toolDefinition }
      else s.customComponents
    ({ s with pm := pm, customComponents := customComponents },
     { success := result.success, errors := result.errors, warnings := result.warnings })

/-- `ExtensibleComponentRegistry.unregisterComponent`: refuses on core
identifiers, otherwise delegates to the plugin manager and mirrors the removal
in the custom-components map. -/
def unregisterComponent (s : ExtRegState) (componentId : String) :
    ExtRegState × Bool :=
  if isCoreComponent componentId then (s, false)
  else
    let (pm, removed) := PluginManager.unregisterPlugin s.pm componentId
    if removed then
      ({ s with pm := pm
                customComponents := mapDelete s.customComponents componentId }, true)
    else ({ s with pm := pm }, false)

/-- `ExtensibleComponentRegistry.getComponent`: core identifiers resolve via the
core registry unconditionally; then the custom-components map; otherwise
`not_found`. -/
def getComponent (s : ExtRegState) (componentId : String) : ComponentLookupResult :=
  let isEnabled := !ComponentConfigManager.isComponentDisabled s.cm componentId
  if isCoreComponent componentId then
    { component := ComponentRegistry.getComponent componentId
      metadata := ComponentRegistry.getMetadata componentId
      isPlugin := false
      isEnabled := isEnabled
      source := .core }
  else
    match mapGet s.customComponents componentId with
    | some customEntry =>
      { component := some customEntry.component
        metadata := some customEntry.metadata
        isPlugin := true
        isEnabled := isEnabled && PluginManager.isPluginEnabled s.pm componentId
        source := .plugin }
    | none =>
      { component := none
        metadata := none
        isPlugin := false
        isEnabled := false
        source := .not_found }

/-- `ExtensibleComponentRegistry.validateProps`. -/
def validateProps (s : ExtRegState) (componentId : String) (props : Props) :
    ValidationResult :=
  if isCoreComponent componentId then
    ComponentRegistry.validateProps componentId props
  else
    PluginManager.validatePluginProps s.pm componentId props

/-- `ExtensibleComponentRegistry.getFallbackComponent`. -/
def getFallbackComponent (s : ExtRegState) (category : Category) : Option Renderer :=
  let customDefault := PluginManager.getCategoryDefault s.pm category.toStr
  let coreFallback : Option Renderer :=
    let fallbackType := FALLBACK_COMPONENTS category
    if !ComponentConfigManager.isComponentDisabled s.cm fallbackType.toId then
      some (COMPONENT_MAP fallbackType)
    else none
  match customDefault with
  | some cid =>
    let lookup := getComponent s cid
    if lookup.component.isSome && lookup.isEnabled then lookup.component
    else coreFallback
  | none => coreFallback

/-- `ExtensibleComponentRegistry.enableComponent`. -/
def enableComponent (s : ExtRegState) (componentId : String) : ExtRegState × Bool :=
  let cm := ComponentConfigManager.enableComponent s.cm componentId
  if !isCoreComponent componentId then
    let (pm, ok) := PluginManager.enablePlugin s.pm componentId
    ({ s with cm := cm, pm := pm }, ok)
  else ({ s with cm := cm }, true)

/-- `ExtensibleComponentRegistry.disableComponent`. -/
def disableComponent (s : ExtRegState) (componentId : String) : ExtRegState :=
  let cm := ComponentConfigManager.disableComponent s.cm componentId
  if !isCoreComponent componentId then
    { s with cm := cm, pm := (PluginManager.disablePlugin s.pm componentId).1 }
  else { s with cm := cm }

end ExtensibleComponentRegistry

/-- The mutating operations a client can run against the extensible registry
(the sequences quantified over by the core-inviolability property): plugin
registration, plugin unregistration, plugin disabling, and component
disabling. -/
inductive RegistryOp where
  | register (plugin : ExtendedComponentPlugin)
  | unregister (componentId : String)
  | disablePlugin (pluginId : String)
  | disableComponent (componentId : String)

/-- Apply one operation to the registry state. -/
def applyOp (s : ExtRegState) : RegistryOp → ExtRegState
  | .register plugin => (ExtensibleComponentRegistry.registerComponent s plugin).1
  | .unregister componentId => (ExtensibleComponentRegistry.unregisterComponent s componentId).1
  | .disablePlugin pluginId => { s with pm := (PluginManager.disablePlugin s.pm pluginId).1 }
  | .disableComponent componentId => ExtensibleComponentRegistry.disableComponent s componentId

/-- Run a sequence of operations from a state. -/
def runOps (s : ExtRegState) (ops : List RegistryOp) : ExtRegState :=
  ops.foldl applyOp s

/- ### Derived definitions and concrete fixtures used by the verification -/

/-- The errors pushed by the per-entry loop of `validateLayoutComponents`:
one combined error line per invalid entry, indexed from `i`. -/
def ComponentRegistry.perConfigErrors : List ComponentConfig → ℕ → List String
  | [], _ => []
  | config :: rest, i =>
    (if (ComponentRegistry.validateComponentConfig config).valid then []
     else ["Component " ++ toString i ++ " (" ++ config.type ++ "): " ++
           String.intercalate ", " (ComponentRegistry.validateComponentConfig config).errors]) ++
    ComponentRegistry.perConfigErrors rest (i + 1)

/-- The number of hero-category entries a layout contains (the filter used by
`validateLayoutComponents`). -/
def ComponentRegistry.heroCount (configs : List ComponentConfig) : ℕ :=
  (configs.filter
    (fun c => c.type = ComponentType.HERO_PRISM.toId ||
              c.type = ComponentType.HERO_TERMINAL.toId)).length

/-- A structurally complete demo plugin used by concrete witnesses. -/
def demoPlugin : ExtendedComponentPlugin :=
  { id := "tool_custom_demo"
    component := some (.custom "demo")
    metadata := some
      { name := "Demo"
        description := "demo plugin"
        category := "hero"
        requiredProps := ["name"]
        optionalProps := [] }
    validateProps := some (fun _ => { valid := true, errors := [], warnings := [] })
    toolDefinition := none
    hooks := none
    config := none }

/-- A registry state whose configuration disallows custom components. -/
def lockedState : ExtRegState :=
  { ExtRegState.initial with
      cm := { DEFAULT_GLOBAL_CONFIG with allowCustomComponents := false } }

/-- The fresh registry after disabling the core hero fallback identifier via
the configuration manager. -/
def disabledHeroState : ExtRegState :=
  ExtensibleComponentRegistry.disableComponent ExtRegState.initial "tool_hero_prism"

/-- A component config whose `order` is the non-integer number 1/2 and whose
props satisfy the HeroPrism validator. -/
def halfOrderConfig : ComponentConfig :=
  { type := "tool_hero_prism"
    props := [("name", .str "Ada"), ("title", .str "Engineer")]
    order := .num (mkRat 1 2) }

/-- A valid experience-category config with order 0 (no hero in sight). -/
def expConfigZero : ComponentConfig :=
  { type := "tool_exp_timeline"
    props := [("experiences", .arr 2)]
    order := .num 0 }

/-- A second experience-category config, also with order 0. -/
def expConfigZeroB : ComponentConfig :=
  { type := "tool_exp_timeline"
    props := [("experiences", .arr 1)]
    order := .num 0 }

/-- Two hero configs with distinct orders. -/
def twoHeroConfigs : List ComponentConfig :=
  [{ type := "tool_hero_prism"
     props := [("name", .str "Ada"), ("title", .str "Engineer")]
     order := .num 0 },
   { type := "tool_hero_terminal"
     props := [("name", .str "Ada"), ("title", .str "Engineer"), ("commands", .arr 1)]
     order := .num 1 }]

/-- The plugin-manager state after registering `demoPlugin` once. -/
def demoPMState : PluginManagerState :=
  (PluginManager.registerPlugin PluginManagerState.initial demoPlugin).1

/-- A global configuration with one per-component override, used by the C9
witness. -/
def demoGlobalConfig : GlobalComponentConfig :=
  { DEFAULT_GLOBAL_CONFIG with
      defaultSettings :=
        { DEFAULT_SETTINGS with
            customClasses := ["base"]
            themeOverrides := [("primary", "red")]
            featureFlags := [("x", true)] }
      componentOverrides :=
        [("tool_custom_demo",
          { animationDuration := some 500
            customClasses := some ["extra"]
            featureFlags := some [("x", false), ("y", true)] })] }

/- ### Generic association-list lemmas -/

theorem lookup_cons_ne {α : Type} (k a : String) (h : a ≠ k) (v : α)
    (l : List (String × α)) : List.lookup k ((a, v) :: l) = List.lookup k l := by
  have hb : (k == a) = false := by simp [Ne.symm h]
  simp [List.lookup, hb]

theorem lookup_cons_self {α : Type} (k : String) (v : α) (l : List (String × α)) :
    List.lookup k ((k, v) :: l) = some v := by
  simp [List.lookup]

theorem lookup_of_not_has {α : Type} (k : String) (m : List (String × α))
    (h : mapHas m k = false) : List.lookup k m = none := by
  induction m with
  | nil => rfl
  | cons p rest ih =>
    obtain ⟨a, b⟩ := p
    simp only [mapHas, List.any_cons, Bool.or_eq_false_iff] at h
    obtain ⟨h1, h2⟩ := h
    rw [lookup_cons_ne k a (by simpa using h1) b rest]
    exact ih h2

theorem lookup_append_of_none {α : Type} (k : String) (a b : List (String × α))
    (h : List.lookup k a = none) : List.lookup k (a ++ b) = List.lookup k b := by
  induction a with
  | nil => rfl
  | cons p rest ih =>
    obtain ⟨a0, v0⟩ := p
    by_cases ha : a0 = k
    · subst ha
      rw [lookup_cons_self] at h
      exact absurd h (by simp)
    · rw [lookup_cons_ne k a0 ha v0] at h
      rw [List.cons_append, lookup_cons_ne k a0 ha v0]
      exact ih h

theorem lookup_append_of_some {α : Type} (k : String) (a b : List (String × α))
    (v : α) (h : List.lookup k a = some v) : List.lookup k (a ++ b) = some v := by
  induction a with
  | nil => simp at h
  | cons p rest ih =>
    obtain ⟨a0, v0⟩ := p
    by_cases ha : a0 = k
    · subst ha
      rw [lookup_cons_self] at h
      rw [List.cons_append, lookup_cons_self]
      exact h
    · rw [lookup_cons_ne k a0 ha v0] at h
      rw [List.cons_append, lookup_cons_ne k a0 ha v0]
      exact ih h

theorem lookup_map_replace {α : Type} (k : String) (v : α) (m : List (String × α))
    (h : mapHas m k = true) :
    List.lookup k (m.map (fun p => if p.1 = k then (k, v) else p)) = some v := by
  induction m with
  | nil => simp [mapHas] at h
  | cons p rest ih =>
    obtain ⟨a0, v0⟩ := p
    by_cases ha : a0 = k
    · subst ha
      simp only [List.map_cons, if_pos rfl]
      exact lookup_cons_self a0 v _
    · simp only [List.map_cons, if_neg ha]
      rw [lookup_cons_ne k a0 ha v0]
      simp only [mapHas, List.any_cons] at h
      rcases Bool.or_eq_true_iff.mp h with h1 | h2
      · exact absurd (by simpa using h1) ha
      · exact ih h2

theorem lookup_mapSet_self {α : Type} (k : String) (v : α) (m : List (String × α)) :
    List.lookup k (mapSet m k v) = some v := by
  by_cases h : mapHas m k
  · simp only [mapSet, h, if_pos]
    exact lookup_map_replace k v m h
  · simp only [mapSet, eq_false_of_ne_true h, Bool.false_eq_true, if_false]
    rw [lookup_append_of_none k m _ (lookup_of_not_has k m (eq_false_of_ne_true h))]
    exact lookup_cons_self k v []

theorem mapSet_length_of_has {α : Type} (k : String) (v : α) (m : List (String × α))
    (h : mapHas m k = true) : (mapSet m k v).length = m.length := by
  simp [mapSet, h]

theorem lookup_filter_keep {α : Type} (k : String) (a b : List (String × α))
    (hb : List.lookup k b = none) :
    List.lookup k (a.filter (fun p => (mapGet b p.1).isNone)) = List.lookup k a := by
  induction a with
  | nil => rfl
  | cons p rest ih =>
    obtain ⟨a0, v0⟩ := p
    by_cases ha : a0 = k
    · subst ha
      simp only [List.filter_cons, mapGet, hb, Option.isNone_none, if_true]
      rw [lookup_cons_self, lookup_cons_self]
    · cases hf : (mapGet b a0).isNone with
      | true =>
        simp only [List.filter_cons, hf, if_true]
        rw [lookup_cons_ne k a0 ha v0, lookup_cons_ne k a0 ha v0]
        exact ih
      | false =>
        simp only [List.filter_cons, hf, Bool.false_eq_true, if_false]
        rw [lookup_cons_ne k a0 ha v0]
        exact ih

theorem lookup_filter_drop {α : Type} (k : String) (a b : List (String × α))
    (v : α) (hb : List.lookup k b = some v) :
    List.lookup k (a.filter (fun p => (mapGet b p.1).isNone)) = none := by
  induction a with
  | nil => rfl
  | cons p rest ih =>
    obtain ⟨a0, v0⟩ := p
    by_cases ha : a0 = k
    · subst ha
      simp only [List.filter_cons, mapGet, hb, Option.isNone_some, Bool.false_eq_true,
        if_false]
      exact ih
    · cases hf : (mapGet b a0).isNone with
      | true =>
        simp only [List.filter_cons, hf, if_true]
        rw [lookup_cons_ne k a0 ha v0]
        exact ih
      | false =>
        simp only [List.filter_cons, hf, Bool.false_eq_true, if_false]
        exact ih

theorem lookup_recMerge {α : Type} (a b : List (String × α)) (k : String) :
    List.lookup k (recMerge a b) = (List.lookup k b).or (List.lookup k a) := by
  cases hb : List.lookup k b with
  | some v =>
    rw [recMerge, lookup_append_of_none k _ b (lookup_filter_drop k a b v hb), hb]
    rfl
  | none =>
    rw [recMerge]
    cases hf : List.lookup k (a.filter (fun p => (mapGet b p.1).isNone)) with
    | some w =>
      rw [lookup_append_of_some k _ b w hf]
      rw [lookup_filter_keep k a b hb] at hf
      rw [hf]
      rfl
    | none =>
      rw [lookup_append_of_none k _ b hf, hb]
      rw [lookup_filter_keep k a b hb] at hf
      rw [hf]
      rfl

theorem recMerge_nil {α : Type} (a : List (String × α)) : recMerge a [] = a := by
  simp [recMerge, mapGet]

/- ### Case-insensitive mention of a substring in a message -/

/-- `msg` mentions `pat` case-insensitively: the (lowercase) pattern occurs as a
contiguous substring of the lowercased message. -/
abbrev mentionsCI (pat msg : String) : Prop :=
  pat.toList <:+: msg.toList.map Char.toLower

theorem mentionsCI_of_prefix (pat pre suf : String)
    (h : pat.toList <+: pre.toList.map Char.toLower) :
    mentionsCI pat (pre ++ suf) := by
  obtain ⟨t, ht⟩ := h
  refine ⟨[], t ++ suf.toList.map Char.toLower, ?_⟩
  have hl : (pre ++ suf).toList = pre.toList ++ suf.toList := String.data_append pre suf
  simp only [hl, List.map_append, List.nil_append, ← ht, List.append_assoc]

/- ### Facts about core identifiers -/

theorem componentTypeOfId_toId (ct : ComponentType) :
    componentTypeOfId ct.toId = some ct := by
  cases ct <;> rfl

theorem isCore_toId (ct : ComponentType) :
    ExtensibleComponentRegistry.isCoreComponent ct.toId = true := by
  cases ct <;> rfl

/-- Core lookup in the extensible registry, for any state whatsoever. -/
theorem getComponent_core (s : ExtRegState) (ct : ComponentType) :
    ExtensibleComponentRegistry.getComponent s ct.toId =
      { component := some (COMPONENT_MAP ct)
        metadata := some (componentMetadata ct)
        isPlugin := false
        isEnabled := !ComponentConfigManager.isComponentDisabled s.cm ct.toId
        source := .core } := by
  cases ct <;> rfl

/-- `unregisterComponent` refuses core identifiers without touching the state. -/
theorem unregisterComponent_core (s : ExtRegState) (ct : ComponentType) :
    ExtensibleComponentRegistry.unregisterComponent s ct.toId = (s, false) := by
  cases ct <;> rfl

/- ### Claim theorems -/

/-- C1 (core inviolability): after any sequence of plugin registrations, plugin
unregistrations, plugin disables, or component disables run against a fresh
registry, every one of the 7 core component identifiers still resolves with
`source = "core"` and non-null component and metadata, and
`unregisterComponent` on that identifier returns `false` and leaves the
registry state unchanged. -/
theorem core_inviolability (ops : List RegistryOp) (ct : ComponentType) :
    ((ExtensibleComponentRegistry.getComponent (runOps ExtRegState.initial ops)
        ct.toId).source = Source.core) ∧
    ((ExtensibleComponentRegistry.getComponent (runOps ExtRegState.initial ops)
        ct.toId).component = some (COMPONENT_MAP ct)) ∧
    ((ExtensibleComponentRegistry.getComponent (runOps ExtRegState.initial ops)
        ct.toId).metadata = some (componentMetadata ct)) ∧
    (ExtensibleComponentRegistry.unregisterComponent (runOps ExtRegState.initial ops)
        ct.toId = (runOps ExtRegState.initial ops, false)) := by
  rw [getComponent_core, unregisterComponent_core]
  exact ⟨rfl, rfl, rfl, rfl⟩

/-- C6 (theme totality): `getThemeDefinition` is total — for any input string it
returns one of the three fixed, fully-populated definitions (all four colors
and the CSS class non-empty), and an input that is not a valid palette
identifier resolves to the default theme's definition. Purity and determinism
hold by construction: the embedding is a pure function, so repeated
applications to the same string are definitionally equal. -/
theorem theme_totality (theme : String) :
    (∃ p : ThemePalette, getThemeDefinition theme = THEME_DEFINITIONS p) ∧
    (isValidTheme theme = false →
      getThemeDefinition theme = THEME_DEFINITIONS DEFAULT_THEME) ∧
    (getThemeDefinition theme).colors.primary ≠ "" ∧
    (getThemeDefinition theme).colors.secondary ≠ "" ∧
    (getThemeDefinition theme).colors.accent ≠ "" ∧
    (getThemeDefinition theme).colors.glow ≠ "" ∧
    (getThemeDefinition theme).cssClass ≠ "" := by
  cases hp : themePaletteOfId theme with
  | none =>
    refine ⟨⟨DEFAULT_THEME, ?_⟩, fun _ => ?_, ?_, ?_, ?_, ?_, ?_⟩ <;>
      simp [getThemeDefinition, hp] <;> decide
  | some p =>
    refine ⟨⟨p, ?_⟩, fun hv => ?_, ?_, ?_, ?_, ?_, ?_⟩
    · simp [getThemeDefinition, hp]
    · exact absurd hv (by simp [isValidTheme, hp])
    all_goals (simp only [getThemeDefinition, hp]; cases p <;> decide)

/-- Witness for C6 at a concrete invalid identifier. -/
theorem theme_totality_witness :
    getThemeDefinition "vaporwave" = THEME_DEFINITIONS DEFAULT_THEME :=
  (theme_totality "vaporwave").2.1 rfl

/-- C7 (non-blocking theme change): the synchronous `setTheme` call performs no
listener invocation at all — when the validated theme differs from the current
one it updates the current theme synchronously and schedules exactly one
deferred task that will notify the current subscribers after the caller
unwinds, and when the validated theme equals the current one (in particular,
for an invalid identifier while the current theme is the default) it returns
with the state unchanged and nothing scheduled, so zero listeners ever run. -/
theorem setTheme_nonblocking (st : ThemeEngineState) (theme : String) :
    ((ThemeEngine.setTheme st theme).immediateNotifications = []) ∧
    (ensureValidTheme theme = st.currentTheme →
      ThemeEngine.setTheme st theme =
        { state := st, immediateNotifications := [], deferredTasks := [] }) ∧
    (ensureValidTheme theme ≠ st.currentTheme →
      (ThemeEngine.setTheme st theme).state.currentTheme = ensureValidTheme theme ∧
      (ThemeEngine.setTheme st theme).deferredTasks = [st.listeners]) := by
  by_cases h : ensureValidTheme theme = st.currentTheme
  · refine ⟨?_, fun _ => ?_, fun hne => absurd h hne⟩ <;>
      simp [ThemeEngine.setTheme, h]
  · refine ⟨?_, fun he => absurd he h, fun _ => ⟨?_, ?_⟩⟩ <;>
      simp [ThemeEngine.setTheme, h]

/-- Witness for C7: a changing call schedules the deferred notification; a
same-theme call (here: an invalid identifier while the default theme is
current) schedules nothing. -/
theorem setTheme_nonblocking_witness :
    ((ThemeEngine.setTheme { currentTheme := .NEON_BLUE, listeners := [0, 1] }
        "cyber_pink").deferredTasks = [[0, 1]]) ∧
    (ThemeEngine.setTheme { currentTheme := .NEON_BLUE, listeners := [0, 1] }
        "not_a_theme" =
      { state := { currentTheme := .NEON_BLUE, listeners := [0, 1] }
        immediateNotifications := []
        deferredTasks := [] }) := by
  constructor
  · exact ((setTheme_nonblocking
      { currentTheme := .NEON_BLUE, listeners := [0, 1] } "cyber_pink").2.2
      (by decide)).2
  · exact (setTheme_nonblocking
      { currentTheme := .NEON_BLUE, listeners := [0, 1] } "not_a_theme").2.1 (by decide)

/-- C10 (registration blocked by configuration): when the global configuration
has `allowCustomComponents = false`, `registerComponent` returns a failure with
exactly the one "not allowed" error and no warnings, and the whole registry
state (plugin map, plugin configurations, custom-components map, global
configuration) is returned unchanged. -/
theorem registerComponent_disallowed (s : ExtRegState)
    (plugin : ExtendedComponentPlugin)
    (h : s.cm.allowCustomComponents = false) :
    ExtensibleComponentRegistry.registerComponent s plugin =
      (s, { success := false
            errors := ["Custom components are not allowed in current configuration"]
            warnings := [] }) := by
  simp [ExtensibleComponentRegistry.registerComponent, h]

/-- Witness for C10 at a concrete state and plugin. -/
theorem registerComponent_disallowed_witness :
    ExtensibleComponentRegistry.registerComponent lockedState demoPlugin =
      (lockedState,
       { success := false
         errors := ["Custom components are not allowed in current configuration"]
         warnings := [] }) :=
  registerComponent_disallowed lockedState demoPlugin rfl

/-- C2 counterexample: after disabling the core hero fallback identifier
`tool_hero_prism` via the Configuration Manager — with the core registry fully
intact, as the first two conjuncts document — `getFallbackComponent` for the
hero category returns null, so the claim's "holds even when the core fallback
identifier has been disabled" is false on the code. -/
theorem fallback_null_when_core_fallback_disabled :
    ((ExtensibleComponentRegistry.getComponent disabledHeroState "tool_hero_prism").source
        = Source.core) ∧
    ((ExtensibleComponentRegistry.getComponent disabledHeroState "tool_hero_prism").component
        = some Renderer.HeroPrism) ∧
    (ExtensibleComponentRegistry.getFallbackComponent disabledHeroState Category.hero
        = none) :=
  ⟨rfl, rfl, rfl⟩

/-- C2 (amended): for every category, `getFallbackComponent` returns a non-null
renderer whenever the category's fixed core fallback identifier is not disabled
in the Configuration Manager — a custom category default, if present but
unusable, never loses the core last resort; if the core fallback identifier is
itself disabled (and no enabled custom default exists), the lookup returns
null. -/
theorem getFallbackComponent_of_fallback_enabled (s : ExtRegState)
    (category : Category)
    (h : ComponentConfigManager.isComponentDisabled s.cm
      (FALLBACK_COMPONENTS category).toId = false) :
    (ExtensibleComponentRegistry.getFallbackComponent s category).isSome = true := by
  simp only [ExtensibleComponentRegistry.getFallbackComponent]
  cases hd : PluginManager.getCategoryDefault s.pm category.toStr with
  | none => simp [h]
  | some cid =>
    by_cases hc : ((ExtensibleComponentRegistry.getComponent s cid).component.isSome
        && (ExtensibleComponentRegistry.getComponent s cid).isEnabled) = true
    · simp only [hc, if_true]
      rw [Bool.and_eq_true] at hc
      exact hc.1
    · simp only [Bool.not_eq_true] at hc
      simp [hc, h]

/-- Witness for C2 (amended) at the fresh registry and the hero category. -/
theorem getFallbackComponent_witness :
    (ExtensibleComponentRegistry.getFallbackComponent ExtRegState.initial
      Category.hero).isSome = true :=
  getFallbackComponent_of_fallback_enabled ExtRegState.initial Category.hero rfl

/-- C3 counterexample: for the unknown identifier `tool_custom_widget` on the
fresh registry, the extensible registry's `validateProps` does return exactly
one error, but that error is `Plugin not found: ...`, which does not mention
"unknown" (case-insensitively), contradicting the claim for the
`ExtensibleComponentRegistry` entry point. -/
theorem unknown_identifier_error_wording_cex :
    (isValidComponentType "tool_custom_widget" = false) ∧
    (mapGet ExtRegState.initial.pm.plugins "tool_custom_widget" = none) ∧
    ((ExtensibleComponentRegistry.validateProps ExtRegState.initial
        "tool_custom_widget" []).valid = false) ∧
    ((ExtensibleComponentRegistry.validateProps ExtRegState.initial
        "tool_custom_widget" []).errors
      = ["Plugin not found: tool_custom_widget"]) ∧
    ¬ mentionsCI "unknown" "Plugin not found: tool_custom_widget" :=
  ⟨rfl, rfl, rfl, rfl, by decide⟩

/-- C3 (amended): for any string that is neither a core identifier nor a
registered plugin, `getComponent`/`getMetadata` of the core registry return
null; the extensible lookup reports `not_found` with null component and
metadata; the core registry's `validateProps` returns invalid with exactly the
one error `Unknown component type: ...`, which mentions "unknown"
case-insensitively; and the extensible registry's `validateProps` returns
invalid with exactly the one error `Plugin not found: ...` (which mentions
"not found" rather than "unknown"). -/
theorem unknown_identifier_safety (s : ExtRegState) (componentId : String)
    (props : Props)
    (h1 : isValidComponentType componentId = false)
    (h2 : mapGet s.pm.plugins componentId = none)
    (h3 : mapGet s.customComponents componentId = none) :
    (ComponentRegistry.getComponent componentId = none) ∧
    (ComponentRegistry.getMetadata componentId = none) ∧
    ((ExtensibleComponentRegistry.getComponent s componentId).source
        = Source.not_found) ∧
    ((ExtensibleComponentRegistry.getComponent s componentId).component = none) ∧
    ((ExtensibleComponentRegistry.getComponent s componentId).metadata = none) ∧
    (ComponentRegistry.validateProps componentId props =
      { valid := false
        errors := ["Unknown component type: " ++ componentId]
        warnings := [] }) ∧
    mentionsCI "unknown" ("Unknown component type: " ++ componentId) ∧
    (ExtensibleComponentRegistry.validateProps s componentId props =
      { valid := false
        errors := ["Plugin not found: " ++ componentId]
        warnings := [] }) := by
  have h0 : componentTypeOfId componentId = none := by
    cases hx : componentTypeOfId componentId with
    | none => rfl
    | some t => rw [isValidComponentType, hx] at h1; exact absurd h1 (by simp)
  refine ⟨?_, ?_, ?_, ?_, ?_, ?_, ?_, ?_⟩
  · simp [ComponentRegistry.getComponent, h0]
  · simp [ComponentRegistry.getMetadata, h0]
  · simp [ExtensibleComponentRegistry.getComponent,
      ExtensibleComponentRegistry.isCoreComponent, h1, h3]
  · simp [ExtensibleComponentRegistry.getComponent,
      ExtensibleComponentRegistry.isCoreComponent, h1, h3]
  · simp [ExtensibleComponentRegistry.getComponent,
      ExtensibleComponentRegistry.isCoreComponent, h1, h3]
  · simp [ComponentRegistry.validateProps, h0]
  · exact mentionsCI_of_prefix "unknown" "Unknown component type: " componentId
      (by decide)
  · simp [ExtensibleComponentRegistry.validateProps,
      ExtensibleComponentRegistry.isCoreComponent, h1,
      PluginManager.validatePluginProps, h2]

/-- Witness for C3 (amended) at a concrete unknown identifier on the fresh
registry. -/
theorem unknown_identifier_safety_witness :
    (ComponentRegistry.getComponent "tool_custom_widget" = none) ∧
    ((ExtensibleComponentRegistry.getComponent ExtRegState.initial
        "tool_custom_widget").source = Source.not_found) ∧
    mentionsCI "unknown" ("Unknown component type: " ++ "tool_custom_widget") :=
  ⟨(unknown_identifier_safety ExtRegState.initial "tool_custom_widget" []
      rfl rfl rfl).1,
   (unknown_identifier_safety ExtRegState.initial "tool_custom_widget" []
      rfl rfl rfl).2.2.1,
   (unknown_identifier_safety ExtRegState.initial "tool_custom_widget" []
      rfl rfl rfl).2.2.2.2.2.2.1⟩

theorem isEmpty_append_eq {α : Type} (a b : List α) :
    (a ++ b).isEmpty = (a.isEmpty && b.isEmpty) := by
  cases a <;> cases b <;> simp

/-- In the core registry, the `valid` flag always equals emptiness of the
`errors` list. -/
theorem validateProps_valid_eq_isEmpty (ty : String) (props : Props) :
    (ComponentRegistry.validateProps ty props).valid =
      (ComponentRegistry.validateProps ty props).errors.isEmpty := by
  unfold ComponentRegistry.validateProps
  cases componentTypeOfId ty with
  | none => rfl
  | some t =>
    cases t <;> simp only [propValidators] <;>
      first
        | rfl
        | (split <;> first | rfl | (split <;> rfl))

/-- C4 counterexample: a config whose `order` is the non-integer, non-negative
number 1/2 (and whose props pass the HeroPrism validator) is accepted by
`validateComponentConfig`, although the claim requires every non-integer order
to fail validation. -/
theorem nonInteger_order_accepted_cex :
    ((ComponentRegistry.validateComponentConfig halfOrderConfig).valid = true) ∧
    (halfOrderConfig.order = .num (mkRat 1 2)) ∧
    ((mkRat 1 2).isInt = false) ∧
    ((0 : ℚ) ≤ mkRat 1 2) :=
  ⟨rfl, rfl, by decide, by decide⟩

/-- C4 (amended): `validateComponentConfig` combines the prop-validation errors
with the order check, and its `valid` flag is true exactly when the props
validate and `order` is a non-negative *number* — integrality is not checked,
so a negative or non-numeric order always fails while any non-negative number
(integer or not) passes the order check. -/
theorem validateComponentConfig_characterization (config : ComponentConfig) :
    ((ComponentRegistry.validateComponentConfig config).errors =
      (ComponentRegistry.validateProps config.type config.props).errors ++
        (if ComponentRegistry.orderOk config.order then []
         else ["Component config requires a non-negative order number"])) ∧
    ((ComponentRegistry.validateComponentConfig config).valid =
      ((ComponentRegistry.validateProps config.type config.props).valid &&
        ComponentRegistry.orderOk config.order)) ∧
    (∀ q : ℚ, config.order = .num q →
      ComponentRegistry.orderOk config.order = decide (0 ≤ q)) ∧
    ((∃ q : ℚ, config.order = .num q) ∨
      ComponentRegistry.orderOk config.order = false) := by
  refine ⟨rfl, ?_, ?_, ?_⟩
  · show ((ComponentRegistry.validateProps config.type config.props).errors ++
        (if ComponentRegistry.orderOk config.order then []
         else ["Component config requires a non-negative order number"])).isEmpty = _
    rw [isEmpty_append_eq, validateProps_valid_eq_isEmpty]
    cases ComponentRegistry.orderOk config.order <;> simp
  · intro q hq
    rw [hq]
    rfl
  · cases config.order with
    | num q => exact Or.inl ⟨q, rfl⟩
    | jsUndefined => exact Or.inr rfl
    | null => exact Or.inr rfl
    | bool b => exact Or.inr rfl
    | str s => exact Or.inr rfl
    | arr n => exact Or.inr rfl

/-- Witness for C4 (amended) at the concrete half-order config. -/
theorem validateComponentConfig_characterization_witness :
    ((ComponentRegistry.validateComponentConfig halfOrderConfig).valid =
      ((ComponentRegistry.validateProps halfOrderConfig.type
          halfOrderConfig.props).valid &&
        ComponentRegistry.orderOk halfOrderConfig.order)) ∧
    (ComponentRegistry.orderOk halfOrderConfig.order =
      decide ((0 : ℚ) ≤ mkRat 1 2)) :=
  ⟨(validateComponentConfig_characterization halfOrderConfig).2.1,
   (validateComponentConfig_characterization halfOrderConfig).2.2.1
     (mkRat 1 2) rfl⟩

/-- The errors produced by the layout loop do not depend on the duplicate-order
bookkeeping: they are exactly the per-config validation failures. -/
theorem layoutLoop_fst (cfgs : List ComponentConfig) (i : ℕ) (seen : List JsValue) :
    (ComponentRegistry.layoutLoop cfgs i seen).1 =
      ComponentRegistry.perConfigErrors cfgs i := by
  induction cfgs generalizing i seen with
  | nil => rfl
  | cons c rest ih =>
    simp only [ComponentRegistry.layoutLoop, ComponentRegistry.perConfigErrors]
    rw [ih]

theorem dupWarning_mentions (v : JsValue) :
    mentionsCI "duplicate order" ("Duplicate order value " ++ v.display ++ " found") := by
  have h : ("Duplicate order value " ++ v.display ++ " found")
      = "Duplicate order value " ++ (v.display ++ " found") :=
    String.append_assoc "Duplicate order value " v.display " found"
  rw [h]
  exact mentionsCI_of_prefix "duplicate order" "Duplicate order value "
    (v.display ++ " found") (by decide)

/-- If the orders of the remaining configs have a duplicate (or repeat an
already-seen order), the loop emits a warning mentioning "duplicate order". -/
theorem layoutLoop_dup (cfgs : List ComponentConfig) (i : ℕ) (seen : List JsValue)
    (h : ¬ (cfgs.map (fun c => c.order)).Nodup ∨ ∃ c ∈ cfgs, c.order ∈ seen) :
    ∃ w ∈ (ComponentRegistry.layoutLoop cfgs i seen).2,
      mentionsCI "duplicate order" w := by
  induction cfgs generalizing i seen with
  | nil =>
    rcases h with h | ⟨c, hc, _⟩
    · exact absurd List.nodup_nil h
    · exact absurd hc (List.not_mem_nil c)
  | cons c rest ih =>
    by_cases hs : seen.contains c.order = true
    · refine ⟨"Duplicate order value " ++ c.order.display ++ " found", ?_,
        dupWarning_mentions c.order⟩
      simp only [ComponentRegistry.layoutLoop, hs, if_true]
      simp
    · have hsm : c.order ∉ seen := by
        intro hmem
        exact hs (List.elem_eq_true_of_mem hmem)
      have hrec : ¬ (rest.map (fun c => c.order)).Nodup ∨
          ∃ d ∈ rest, d.order ∈ (c.order :: seen) := by
        rcases h with h | ⟨d, hd, hds⟩
        · rw [List.map_cons, List.nodup_cons] at h
          by_cases hmem : c.order ∈ rest.map (fun c => c.order)
          · obtain ⟨d, hd, hdo⟩ := List.mem_map.mp hmem
            exact Or.inr ⟨d, hd, by rw [hdo]; exact List.mem_cons_self _ _⟩
          · exact Or.inl (fun hnd => h ⟨hmem, hnd⟩)
        · rcases List.mem_cons.mp hd with rfl | hd2
          · exact absurd hds hsm
          · exact Or.inr ⟨d, hd2, List.mem_cons_of_mem _ hds⟩
      obtain ⟨w, hw, hm⟩ := ih (i + 1) (c.order :: seen) hrec
      refine ⟨w, ?_, hm⟩
      simp only [ComponentRegistry.layoutLoop]
      simp only [List.mem_append]
      exact Or.inr hw

/-- C5: in `validateLayoutComponents`, the `valid` flag is determined solely by
the errors list (true exactly when it is empty); the errors are exactly the
per-entry validation failures, so an empty layout, a missing hero, multiple
heroes, and duplicate orders are never errors; each of those four conditions
produces its warning, and the duplicate-order warning mentions
"duplicate order" case-insensitively. -/
theorem layout_warnings_never_block (configs : List ComponentConfig) :
    ((ComponentRegistry.validateLayoutComponents configs).valid =
      (ComponentRegistry.validateLayoutComponents configs).errors.isEmpty) ∧
    ((ComponentRegistry.validateLayoutComponents configs).errors =
      ComponentRegistry.perConfigErrors configs 0) ∧
    (configs = [] → "Layout has no components configured" ∈
      (ComponentRegistry.validateLayoutComponents configs).warnings) ∧
    (ComponentRegistry.heroCount configs = 0 → "Layout has no hero component" ∈
      (ComponentRegistry.validateLayoutComponents configs).warnings) ∧
    (1 < ComponentRegistry.heroCount configs →
      "Layout has multiple hero components" ∈
        (ComponentRegistry.validateLayoutComponents configs).warnings) ∧
    (¬ (configs.map (fun c => c.order)).Nodup →
      ∃ w ∈ (ComponentRegistry.validateLayoutComponents configs).warnings,
        mentionsCI "duplicate order" w) := by
  refine ⟨rfl, layoutLoop_fst configs 0 [], ?_, ?_, ?_, ?_⟩
  · intro h
    subst h
    simp [ComponentRegistry.validateLayoutComponents]
  · intro h
    rw [ComponentRegistry.heroCount] at h
    simp only [ComponentRegistry.validateLayoutComponents, h, List.mem_append]
    exact Or.inl (Or.inr (by simp))
  · intro h
    rw [ComponentRegistry.heroCount] at h
    have hne : ¬ ((configs.filter
        (fun c => c.type = ComponentType.HERO_PRISM.toId ||
                  c.type = ComponentType.HERO_TERMINAL.toId)).length = 0) := by
      omega
    simp only [ComponentRegistry.validateLayoutComponents, hne, h, List.mem_append,
      if_false, if_true]
    exact Or.inl (Or.inr (by simp [hne, h]))
  · intro h
    obtain ⟨w, hw, hm⟩ := layoutLoop_dup configs 0 [] (Or.inl h)
    refine ⟨w, ?_, hm⟩
    simp only [ComponentRegistry.validateLayoutComponents, List.mem_append]
    exact Or.inr hw

/-- Witness for C5 across the scenarios: empty layout, hero-less layout with a
duplicate order, and a two-hero layout; the warning-carrying hero-less layout
is still valid. -/
theorem layout_warnings_witness :
    ("Layout has no components configured" ∈
      (ComponentRegistry.validateLayoutComponents []).warnings) ∧
    ("Layout has no hero component" ∈
      (ComponentRegistry.validateLayoutComponents
        [expConfigZero, expConfigZeroB]).warnings) ∧
    (∃ w ∈ (ComponentRegistry.validateLayoutComponents
        [expConfigZero, expConfigZeroB]).warnings, mentionsCI "duplicate order" w) ∧
    ("Layout has multiple hero components" ∈
      (ComponentRegistry.validateLayoutComponents twoHeroConfigs).warnings) ∧
    ((ComponentRegistry.validateLayoutComponents
        [expConfigZero, expConfigZeroB]).valid = true) :=
  ⟨(layout_warnings_never_block []).2.2.1 rfl,
   (layout_warnings_never_block [expConfigZero, expConfigZeroB]).2.2.2.1 rfl,
   (layout_warnings_never_block [expConfigZero, expConfigZeroB]).2.2.2.2.2
     (by decide),
   (layout_warnings_never_block twoHeroConfigs).2.2.2.2.1 (by decide),
   ((layout_warnings_never_block [expConfigZero, expConfigZeroB]).1).trans rfl⟩

/-- C8 (plugin overwrite): registering a structurally complete plugin whose
identifier is already registered succeeds with a warning naming the identifier
and saying it will be overwritten, replaces the stored plugin while keeping the
plugin count unchanged, leaves an existing per-plugin configuration untouched,
and seeds a configuration (the plugin's own, or the default
`enabled:true, priority:0`) only when none exists. -/
theorem plugin_overwrite (s : PluginManagerState) (plugin : ExtendedComponentPlugin)
    (hok : PluginManager.registerErrors plugin = [])
    (hdup : mapHas s.plugins plugin.id = true) :
    ((PluginManager.registerPlugin s plugin).2.success = true) ∧
    (("Plugin " ++ plugin.id ++ " already registered, will be overwritten")
      ∈ (PluginManager.registerPlugin s plugin).2.warnings) ∧
    (PluginManager.getPluginCount (PluginManager.registerPlugin s plugin).1 =
      PluginManager.getPluginCount s) ∧
    (mapGet (PluginManager.registerPlugin s plugin).1.plugins plugin.id
      = some plugin) ∧
    (mapHas s.configs plugin.id = true →
      (PluginManager.registerPlugin s plugin).1.configs = s.configs) ∧
    (mapHas s.configs plugin.id = false →
      (PluginManager.registerPlugin s plugin).1.configs =
        mapSet s.configs plugin.id
          (plugin.config.getD PluginManager.defaultPluginConfig)) := by
  refine ⟨?_, ?_, ?_, ?_, ?_, ?_⟩
  · simp [PluginManager.registerPlugin, hok, hdup]
  · simp [PluginManager.registerPlugin, hok, hdup]
  · simp only [PluginManager.registerPlugin, hok, hdup, List.isEmpty_nil, if_true]
    exact mapSet_length_of_has plugin.id plugin s.plugins hdup
  · simp only [PluginManager.registerPlugin, hok, hdup, List.isEmpty_nil, if_true]
    exact lookup_mapSet_self plugin.id plugin s.plugins
  · intro hc
    simp [PluginManager.registerPlugin, hok, hdup, hc]
  · intro hc
    simp [PluginManager.registerPlugin, hok, hdup, hc]

/-- Witness for C8: registering `demoPlugin` a second time over a state that
already holds it. -/
theorem plugin_overwrite_witness :
    ((PluginManager.registerPlugin demoPMState demoPlugin).2.success = true) ∧
    (("Plugin " ++ demoPlugin.id ++ " already registered, will be overwritten")
      ∈ (PluginManager.registerPlugin demoPMState demoPlugin).2.warnings) ∧
    (PluginManager.getPluginCount
        (PluginManager.registerPlugin demoPMState demoPlugin).1 =
      PluginManager.getPluginCount demoPMState) ∧
    ((PluginManager.registerPlugin demoPMState demoPlugin).1.configs =
      demoPMState.configs) :=
  ⟨(plugin_overwrite demoPMState demoPlugin rfl rfl).1,
   (plugin_overwrite demoPMState demoPlugin rfl rfl).2.1,
   (plugin_overwrite demoPMState demoPlugin rfl rfl).2.2.1,
   (plugin_overwrite demoPMState demoPlugin rfl rfl).2.2.2.2.1 rfl⟩

/-- C9 (settings deep-merge): `getComponentSettings` merges the defaults with
the identifier's overrides — scalar fields take the override value when
present, `customClasses` is the default list followed by the override list, and
the map-valued `themeOverrides`/`featureFlags` merge key-wise with override
precedence; with no override record the result is exactly the defaults. -/
theorem settings_deep_merge (g : GlobalComponentConfig) (componentId : String) :
    ((ComponentConfigManager.getComponentSettings g componentId).animationsEnabled =
      ((mapGet g.componentOverrides componentId).getD
        emptyPartialSettings).animationsEnabled.getD
          g.defaultSettings.animationsEnabled) ∧
    ((ComponentConfigManager.getComponentSettings g componentId).animationDuration =
      ((mapGet g.componentOverrides componentId).getD
        emptyPartialSettings).animationDuration.getD
          g.defaultSettings.animationDuration) ∧
    ((ComponentConfigManager.getComponentSettings g componentId).showTooltips =
      ((mapGet g.componentOverrides componentId).getD
        emptyPartialSettings).showTooltips.getD
          g.defaultSettings.showTooltips) ∧
    ((ComponentConfigManager.getComponentSettings g componentId).customClasses =
      g.defaultSettings.customClasses ++
        ((mapGet g.componentOverrides componentId).getD
          emptyPartialSettings).customClasses.getD []) ∧
    (∀ k, mapGet
        (ComponentConfigManager.getComponentSettings g componentId).themeOverrides k =
      (mapGet (((mapGet g.componentOverrides componentId).getD
          emptyPartialSettings).themeOverrides.getD []) k).or
        (mapGet g.defaultSettings.themeOverrides k)) ∧
    (∀ k, mapGet
        (ComponentConfigManager.getComponentSettings g componentId).featureFlags k =
      (mapGet (((mapGet g.componentOverrides componentId).getD
          emptyPartialSettings).featureFlags.getD []) k).or
        (mapGet g.defaultSettings.featureFlags k)) ∧
    (mapGet g.componentOverrides componentId = none →
      ComponentConfigManager.getComponentSettings g componentId =
        g.defaultSettings) := by
  refine ⟨rfl, rfl, rfl, rfl, ?_, ?_, ?_⟩
  · intro k
    exact lookup_recMerge g.defaultSettings.themeOverrides _ k
  · intro k
    exact lookup_recMerge g.defaultSettings.featureFlags _ k
  · intro h
    simp [ComponentConfigManager.getComponentSettings, h, emptyPartialSettings,
      recMerge_nil]

/-- Witness for C9 on a configuration with one override record present and one
identifier with no overrides. -/
theorem settings_deep_merge_witness :
    ((ComponentConfigManager.getComponentSettings demoGlobalConfig
        "tool_custom_demo").customClasses = ["base", "extra"]) ∧
    (mapGet (ComponentConfigManager.getComponentSettings demoGlobalConfig
        "tool_custom_demo").featureFlags "x" = some false) ∧
    (mapGet (ComponentConfigManager.getComponentSettings demoGlobalConfig
        "tool_custom_demo").featureFlags "y" = some true) ∧
    (mapGet (ComponentConfigManager.getComponentSettings demoGlobalConfig
        "tool_custom_demo").themeOverrides "primary" = some "red") ∧
    ((ComponentConfigManager.getComponentSettings demoGlobalConfig
        "tool_custom_demo").animationDuration = 500) ∧
    (ComponentConfigManager.getComponentSettings demoGlobalConfig "tool_other" =
      demoGlobalConfig.defaultSettings) :=
  ⟨((settings_deep_merge demoGlobalConfig "tool_custom_demo").2.2.2.1).trans rfl,
   ((settings_deep_merge demoGlobalConfig "tool_custom_demo").2.2.2.2.2.1 "x").trans
     rfl,
   ((settings_deep_merge demoGlobalConfig "tool_custom_demo").2.2.2.2.2.1 "y").trans
     rfl,
   ((settings_deep_merge demoGlobalConfig "tool_custom_demo").2.2.2.2.1
     "primary").trans rfl,
   ((settings_deep_merge demoGlobalConfig "tool_custom_demo").2.1).trans rfl,
   (settings_deep_merge demoGlobalConfig "tool_other").2.2.2.2.2.2 rfl⟩

end CVTOOLS
